import Mathlib

/-!
Shallow embedding of the 20-button ESP-NOW remote firmware
(`20_btn_ir_blaster_master.ino`) and verification of its specification.

Each global mutable of the firmware becomes a field of `DeviceState`;
each handler (`keyDown`, `keyUp`, `checkLongKeyPress`, `OnDataSent`,
`checkBattery`, `checkInternalButton`, ...) becomes a state-passing
function returning the next state together with a list of observable
effects (radio sends, backlight patterns, brightness steps, timer
resets, deep-sleep entry, battery classification).  32-bit unsigned
`millis()` arithmetic is modelled with explicit `% 2^32`.
-/

/-- `enum key_cmd { send_ir, learn_ir, f_reset }`. -/
inductive KeyCmd where
  | send_ir
  | learn_ir
  | f_reset
  deriving DecidableEq, Repr

/-- `struct cmd_data { uint8_t key; uint8_t cmd; }` — the wire payload. -/
structure CmdData where
  key : Nat
  cmd : KeyCmd
  deriving DecidableEq, Repr

/-- Battery classification implied by the branches of `checkBattery`. -/
inductive BatteryState where
  | Normal
  | Low
  | Critical
  deriving DecidableEq, Repr

/-- Observable side effects of the firmware handlers. -/
inductive Effect where
  | sent (c : CmdData)
  | brightnessStep
  | pattern (durMs : Nat) (times : Nat)
  | haptic
  | sleepTimerReset
  | enterDeepSleep
  | batteryClassified (b : BatteryState)
  | calibrationSaved (offset : Int)
  deriving DecidableEq, Repr

-- Firmware constants (from the .ino source)
def FN_KEY : Nat := 20
def PWR_KEY : Nat := 5
def FACTORY_RESET_HOLD_MS : Nat := 8000
def DO_CALIBRATION_HOLD_MS : Nat := 2000
def BACKLIGHT_MAX_VAL : Int := 255
def BACKLIGHT_BRIGHTNESS_STEP : Int := 255 / 5
def VBAT_LOW : Nat := 3680
def VBAT_CRITICAL : Nat := 3630
def MAX_TX_RETRY : Nat := 24
def DEFAULT_SLEEP_TIMEOUT_S : Nat := 60
def LOWBAT_SLEEP_TIMEOUT_S : Nat := 10

/-- `2^32`: modulus of `unsigned long` / `uint32_t` arithmetic. -/
def W32 : Nat := 4294967296

/-- Unsigned 32-bit subtraction `a - b`, as in `millis() - lastPwrKeyDown`. -/
def u32sub (a b : Nat) : Nat := (a % W32 + (W32 - b % W32)) % W32

/-- The firmware's global mutable state (one field per global variable
relevant to the verified components). -/
structure DeviceState where
  cmdData : CmdData
  pwr_key_is_down : Bool
  lastPwrKeyDown : Nat
  backlightBrightness : Int
  lowBattery : Bool
  txRetryCount : Nat
  int_btn_is_down : Bool
  lastIntBtnDown : Nat
  analogOffset : Int
  backlightPatCnt : Nat
  backlightPatDurMs : Nat
  backlightPatTimes : Nat
  backlightMilOld : Nat
  hapticStopMils : Nat
  deriving DecidableEq, Repr

/-- State of the firmware at entry to `loop()` on a fresh boot
(global initializers + `setup()`'s `cmdData.cmd = send_ir`);
`offset` is the calibration offset loaded from EEPROM. -/
def initState (offset : Int) : DeviceState :=
  { cmdData := { key := 0, cmd := .send_ir }
    pwr_key_is_down := false
    lastPwrKeyDown := 0
    backlightBrightness := BACKLIGHT_BRIGHTNESS_STEP
    lowBattery := false
    txRetryCount := 0
    int_btn_is_down := false
    lastIntBtnDown := 0
    analogOffset := offset
    backlightPatCnt := 0
    backlightPatDurMs := 0
    backlightPatTimes := 0
    backlightMilOld := 0
    hapticStopMils := 0 }

/-- `backlightSetPattern(duration, times)`. -/
def backlightSetPattern (dur times : Nat) (s : DeviceState) :
    DeviceState × List Effect :=
  ({ s with backlightPatCnt := 0, backlightMilOld := 0,
            backlightPatDurMs := dur, backlightPatTimes := times },
   [Effect.pattern dur times])

/-- `backlightLowBattery()`. -/
def backlightLowBattery (s : DeviceState) : DeviceState × List Effect :=
  backlightSetPattern 100 7 s

/-- `backlightLearnModeSent()`. -/
def backlightLearnModeSent (s : DeviceState) : DeviceState × List Effect :=
  backlightSetPattern 100 5 s

/-- `backlightDataSaved()`. -/
def backlightDataSaved (s : DeviceState) : DeviceState × List Effect :=
  backlightSetPattern 100 11 s

/-- `stepBacklightBrightness()` — brightness cycling on FN release. -/
def stepBacklightBrightness (s : DeviceState) : DeviceState × List Effect :=
  let b : Int :=
    if s.backlightBrightness < BACKLIGHT_MAX_VAL ∧ s.lowBattery = false then
      s.backlightBrightness + BACKLIGHT_BRIGHTNESS_STEP
    else
      BACKLIGHT_BRIGHTNESS_STEP
  let s1 := { s with backlightBrightness := b }
  let p := if s1.lowBattery then backlightLowBattery s1 else (s1, [])
  (p.1, Effect.brightnessStep :: p.2)

/-- `hapticVibrate()`. -/
def hapticVibrate (now : Nat) (s : DeviceState) : DeviceState × List Effect :=
  ({ s with hapticStopMils := (now + 200) % W32 }, [Effect.haptic])

/-- `sendCmd(cmdData)` — transmit the payload over ESP-NOW. -/
def sendCmd (c : CmdData) : List Effect := [Effect.sent c]

/-- `keyDown(which)` — key-press handler (`now` is `millis()`). -/
def keyDown (which : Nat) (now : Nat) (s : DeviceState) :
    DeviceState × List Effect :=
  let p :=
    if s.backlightBrightness = BACKLIGHT_MAX_VAL then hapticVibrate now s
    else (s, [])
  let s2 := { p.1 with cmdData := { p.1.cmdData with key := which } }
  let s3 :=
    if which = FN_KEY then
      { s2 with cmdData := { s2.cmdData with cmd := .learn_ir } }
    else s2
  let s4 :=
    if which = PWR_KEY then
      { s3 with pwr_key_is_down := true, lastPwrKeyDown := now }
    else s3
  (s4, Effect.sleepTimerReset :: p.2)

/-- `keyUp(which)` — key-release handler. -/
def keyUp (which : Nat) (s : DeviceState) : DeviceState × List Effect :=
  let p :=
    if which = FN_KEY ∨ s.cmdData.cmd = KeyCmd.f_reset then
      let sA := { s with cmdData := { s.cmdData with cmd := .send_ir } }
      if sA.cmdData.key = FN_KEY then stepBacklightBrightness sA
      else (sA, [])
    else
      if s.cmdData.cmd = KeyCmd.learn_ir then
        let q := backlightLearnModeSent s
        (q.1, sendCmd s.cmdData ++ q.2)
      else
        (s, sendCmd s.cmdData)
  let s2 :=
    if which = PWR_KEY then { p.1 with pwr_key_is_down := false } else p.1
  (s2, p.2)

/-- `checkLongKeyPress()` — polled long-press watchdog for factory reset. -/
def checkLongKeyPress (now : Nat) (s : DeviceState) :
    DeviceState × List Effect :=
  if s.pwr_key_is_down = true ∧
      FACTORY_RESET_HOLD_MS < u32sub now s.lastPwrKeyDown then
    let s1 := { s with cmdData := { s.cmdData with cmd := .f_reset } }
    let s2 := { s1 with pwr_key_is_down := false }
    let q := backlightDataSaved s2
    (q.1, sendCmd s1.cmdData ++ q.2)
  else (s, [])

/-- `OnDataSent` — ESP-NOW delivery-status callback; on failure retries
the global `cmdData` while the retry counter is below `MAX_TX_RETRY`. -/
def OnDataSent (success : Bool) (s : DeviceState) :
    DeviceState × List Effect :=
  if success then (s, [])
  else
    if s.txRetryCount < MAX_TX_RETRY then
      ({ s with txRetryCount := s.txRetryCount + 1 }, sendCmd s.cmdData)
    else
      ({ s with txRetryCount := 0 }, [])

/-- The filtered battery reading: average of the raw samples
(`uint32_t` sum divided by 30, stored into `uint16_t`) plus the stored
calibration offset, with `uint16_t` wrap-around. -/
def filteredReading (samples : List Nat) (offset : Int) : Nat :=
  let vbatAveVal : Nat := ((samples.sum % W32) / 30) % 65536
  ((((vbatAveVal : Int) + offset) % 65536 + 65536) % 65536).toNat

/-- `calcSaveAnalogOffset()` — one-time calibration at 3600 mV reference. -/
def calcSaveAnalogOffset (calSamples : List Nat) (s : DeviceState) :
    DeviceState × List Effect :=
  let vbatAveVal : Nat := (calSamples.sum % W32) / 30
  let off : Int := 3600 - (vbatAveVal : Int)
  let s1 := { s with analogOffset := off }
  let q := backlightDataSaved s1
  (q.1, Effect.calibrationSaved off :: q.2)

/-- `checkInternalButton()` — debounced calibration-gesture detector;
`pinLow` is `digitalRead(INTERNAL_BTN_PIN) == LOW`. -/
def checkInternalButton (now : Nat) (pinLow : Bool) (calSamples : List Nat)
    (s : DeviceState) : DeviceState × List Effect :=
  let s1 :=
    if s.int_btn_is_down ≠ pinLow then
      if pinLow then { s with int_btn_is_down := pinLow, lastIntBtnDown := now }
      else { s with int_btn_is_down := pinLow }
    else s
  if s1.int_btn_is_down = true ∧
      DO_CALIBRATION_HOLD_MS < u32sub now s1.lastIntBtnDown then
    let q := calcSaveAnalogOffset calSamples s1
    ({ q.1 with int_btn_is_down := false }, q.2)
  else (s1, [])

/-- `checkBattery()` — sample, filter, classify, and act on the battery
state; called from `setup()`.  The emitted `batteryClassified` effect
records which classification branch ran. -/
def checkBattery (samples : List Nat) (now : Nat) (pinLow : Bool)
    (calSamples : List Nat) (s : DeviceState) : DeviceState × List Effect :=
  let v := filteredReading samples s.analogOffset
  if v < VBAT_CRITICAL then
    let p := checkInternalButton now pinLow calSamples s
    if p.1.int_btn_is_down then
      let q := backlightLearnModeSent p.1
      ({ q.1 with lowBattery := true },
       Effect.batteryClassified .Critical :: p.2 ++ q.2)
    else
      (p.1, Effect.batteryClassified .Critical :: p.2 ++ [Effect.enterDeepSleep])
  else if v < VBAT_LOW then
    if s.lowBattery = false then
      let q := backlightLowBattery { s with lowBattery := true }
      (q.1, Effect.batteryClassified .Low :: q.2)
    else
      (s, [Effect.batteryClassified .Low])
  else
    ({ s with lowBattery := false }, [Effect.batteryClassified .Normal])

/-- `updateBacklight()` — advances the non-repeating flash pattern. -/
def updateBacklight (now : Nat) (s : DeviceState) : DeviceState × List Effect :=
  if s.backlightPatCnt < s.backlightPatTimes then
    if (s.backlightMilOld + s.backlightPatDurMs) % W32 < now % W32 then
      ({ s with backlightMilOld := now % W32,
                backlightPatCnt := s.backlightPatCnt + 1 }, [])
    else (s, [])
  else (s, [])

/-- `updateHaptic()` — stops the haptic pulse after its duration. -/
def updateHaptic (_now : Nat) (s : DeviceState) : DeviceState × List Effect :=
  (s, [])

/-- The hardware inactivity timer armed by `startSleepTimer()`:
a 1 MHz up-counter with a one-shot alarm. -/
structure SleepTimer where
  count : Nat
  alarmUs : Nat
  deriving DecidableEq, Repr

/-- `startSleepTimer()` — selects the alarm span from `lowBattery`. -/
def startSleepTimerF (lowBattery : Bool) : SleepTimer :=
  { count := 0
    alarmUs :=
      if lowBattery then LOWBAT_SLEEP_TIMEOUT_S * 1000000
      else DEFAULT_SLEEP_TIMEOUT_S * 1000000 }

/-- `timerWrite(sleepTimer, 0)` — the inactivity-deadline reset performed
on every key press. -/
def timerKeyReset (tm : SleepTimer) : SleepTimer := { tm with count := 0 }

/-- The power-relevant tail of `setup()`: `checkBattery()` followed by
`startSleepTimer()`; `none` when `checkBattery` enters deep sleep
(`esp_deep_sleep_start()` does not return). -/
def setupPower (samples : List Nat) (now : Nat) (pinLow : Bool)
    (calSamples : List Nat) (s : DeviceState) :
    Option (DeviceState × SleepTimer) :=
  let p := checkBattery samples now pinLow calSamples s
  if Effect.enterDeepSleep ∈ p.2 then none
  else some (p.1, startSleepTimerF p.1.lowBattery)

/-- Asynchronous events hitting the firmware state: key-matrix handler
invocations, `checkLongKeyPress` polls, and radio delivery callbacks. -/
inductive Event where
  | down (k : Nat) (t : Nat)
  | up (k : Nat)
  | poll (t : Nat)
  | radio (ok : Bool)
  deriving DecidableEq, Repr

/-- Dispatch one event to its firmware handler. -/
def step (s : DeviceState) (e : Event) : DeviceState × List Effect :=
  match e with
  | .down k t => keyDown k t s
  | .up k => keyUp k s
  | .poll t => checkLongKeyPress t s
  | .radio ok => OnDataSent ok s

/-- Run a sequence of events, concatenating the emitted effects. -/
def run (s : DeviceState) : List Event → DeviceState × List Effect
  | [] => (s, [])
  | e :: es =>
    let p := step s e
    let q := run p.1 es
    (q.1, p.2 ++ q.2)

/-- One iteration of `loop()`: `kpd.scan()` (delivering the cycle's key
events), `checkLongKeyPress()`, `updateBacklight()`, `updateHaptic()`,
`checkInternalButton()`. -/
def loopCycle (evs : List Event) (now : Nat) (pinLow : Bool)
    (calSamples : List Nat) (s : DeviceState) : DeviceState × List Effect :=
  let p1 := run s evs
  let p2 := checkLongKeyPress now p1.1
  let p3 := updateBacklight now p2.1
  let p4 := updateHaptic now p3.1
  let p5 := checkInternalButton now pinLow calSamples p4.1
  (p5.1, p1.2 ++ p2.2 ++ p3.2 ++ p4.2 ++ p5.2)

-- Observation helpers over effect traces

/-- The payloads transmitted in an effect trace, in order. -/
def sentOf (effs : List Effect) : List CmdData :=
  effs.filterMap fun e =>
    match e with
    | .sent c => some c
    | _ => none

/-- Number of brightness-step side effects in a trace. -/
def brightnessSteps (effs : List Effect) : Nat :=
  effs.countP fun e => e = Effect.brightnessStep

/-- Number of FactoryReset commands transmitted in a trace. -/
def fResetSends (effs : List Effect) : Nat :=
  (sentOf effs).countP fun c => c.cmd = KeyCmd.f_reset

/-- The backlight patterns triggered in a trace (duration, repetitions). -/
def patternsOf (effs : List Effect) : List (Nat × Nat) :=
  effs.filterMap fun e =>
    match e with
    | .pattern d t => some (d, t)
    | _ => none

/-- The battery classifications recorded in a trace. -/
def classifiedOf (effs : List Effect) : List BatteryState :=
  effs.filterMap fun e =>
    match e with
    | .batteryClassified b => some b
    | _ => none

/-- Classification as the specification words it: thresholds on the
filtered reading (refinement comparison definition). -/
def specClassify (r : Nat) : BatteryState :=
  if r < 3630 then .Critical
  else if r < 3680 then .Low
  else .Normal

-- Generic lemmas about traces and observations

lemma run_cons (s : DeviceState) (e : Event) (es : List Event) :
    run s (e :: es) =
      ((run (step s e).1 es).1, (step s e).2 ++ (run (step s e).1 es).2) := rfl

lemma run_append (s : DeviceState) (l1 l2 : List Event) :
    run s (l1 ++ l2) =
      ((run (run s l1).1 l2).1, (run s l1).2 ++ (run (run s l1).1 l2).2) := by
  induction l1 generalizing s with
  | nil => simp [run]
  | cons e es ih => simp [run, ih, List.append_assoc]

lemma sentOf_append (a b : List Effect) :
    sentOf (a ++ b) = sentOf a ++ sentOf b := by
  simp [sentOf]

lemma patternsOf_append (a b : List Effect) :
    patternsOf (a ++ b) = patternsOf a ++ patternsOf b := by
  simp [patternsOf]

lemma classifiedOf_append (a b : List Effect) :
    classifiedOf (a ++ b) = classifiedOf a ++ classifiedOf b := by
  simp [classifiedOf]

lemma brightnessSteps_append (a b : List Effect) :
    brightnessSteps (a ++ b) = brightnessSteps a + brightnessSteps b := by
  simp [brightnessSteps, List.countP_append]

lemma fResetSends_append (a b : List Effect) :
    fResetSends (a ++ b) = fResetSends a + fResetSends b := by
  simp [fResetSends, sentOf_append, List.countP_append]

-- Dispatcher lemmas

lemma onDataSent_fail_lt (s : DeviceState) (h : s.txRetryCount < MAX_TX_RETRY) :
    OnDataSent false s =
      ({ s with txRetryCount := s.txRetryCount + 1 }, [Effect.sent s.cmdData]) := by
  simp [OnDataSent, sendCmd, h]

lemma onDataSent_fail_ge (s : DeviceState) (h : ¬ s.txRetryCount < MAX_TX_RETRY) :
    OnDataSent false s = ({ s with txRetryCount := 0 }, []) := by
  simp [OnDataSent, h]

lemma run_failures (n : Nat) :
    ∀ s : DeviceState, s.txRetryCount + n ≤ MAX_TX_RETRY →
      run s (List.replicate n (Event.radio false)) =
        ({ s with txRetryCount := s.txRetryCount + n },
         List.replicate n (Effect.sent s.cmdData)) := by
  induction n with
  | zero => intro s _; simp [run]
  | succ n ih =>
    intro s h
    have hlt : s.txRetryCount < MAX_TX_RETRY := by omega
    have h' : ({ s with txRetryCount := s.txRetryCount + 1 } :
        DeviceState).txRetryCount + n ≤ MAX_TX_RETRY := by
      show s.txRetryCount + 1 + n ≤ MAX_TX_RETRY
      omega
    rw [List.replicate_succ, run_cons]
    simp only [step]
    rw [onDataSent_fail_lt s hlt, ih _ h']
    simp only [Prod.mk.injEq, DeviceState.mk.injEq, List.replicate_succ,
      List.cons_append, List.nil_append, and_true, true_and]
    omega

lemma sentOf_replicate (n : Nat) (c : CmdData) :
    sentOf (List.replicate n (Effect.sent c)) = List.replicate n c := by
  induction n with
  | zero => simp [sentOf]
  | succ n ih => simp [sentOf, List.replicate_succ, ih]

lemma run_25_failures (s : DeviceState) (k : Nat)
    (hk : s.txRetryCount = k) (h : k ≤ 24) :
    run s (List.replicate (25 - k) (Event.radio false)) =
      ({ s with txRetryCount := 0 },
       List.replicate (24 - k) (Effect.sent s.cmdData)) := by
  have hM : MAX_TX_RETRY = 24 := rfl
  have h1 : 25 - k = (24 - k) + 1 := by omega
  have h2 : s.txRetryCount + (24 - k) ≤ MAX_TX_RETRY := by omega
  rw [h1, List.replicate_add, run_append, run_failures _ s h2]
  have hge : ¬ ({ s with txRetryCount := s.txRetryCount + (24 - k) } :
      DeviceState).txRetryCount < MAX_TX_RETRY := by
    show ¬ s.txRetryCount + (24 - k) < MAX_TX_RETRY
    omega
  simp only [List.replicate_one, run, step, onDataSent_fail_ge _ hge]
  simp

/-- C3: starting from a retry counter of 0, N ≤ 24 consecutive
delivery-failure callbacks each resend the pending payload (N resends in
total, counter reaching N); a run of 25 consecutive failures resends
only 24 times — the 25th failure does not resend — and leaves the retry
counter reset to 0. -/
theorem retry_bounded_resend (s : DeviceState) (N : Nat)
    (h0 : s.txRetryCount = 0) (hN : N ≤ 24) :
    sentOf (run s (List.replicate N (Event.radio false))).2 =
      List.replicate N s.cmdData ∧
    (run s (List.replicate N (Event.radio false))).1.txRetryCount = N ∧
    sentOf (run s (List.replicate 25 (Event.radio false))).2 =
      List.replicate 24 s.cmdData ∧
    (run s (List.replicate 25 (Event.radio false))).1.txRetryCount = 0 := by
  have hM : MAX_TX_RETRY = 24 := rfl
  have hN' : s.txRetryCount + N ≤ MAX_TX_RETRY := by omega
  have e25 := run_25_failures s 0 h0 (by omega)
  simp only [Nat.sub_zero] at e25
  refine ⟨?_, ?_, ?_, ?_⟩
  · rw [run_failures N s hN', sentOf_replicate]
  · rw [run_failures N s hN']
    show s.txRetryCount + N = N
    omega
  · rw [e25, sentOf_replicate]
  · rw [e25]

/-- Witness for `retry_bounded_resend` at N = 2 from the boot state. -/
theorem retry_bounded_resend_witness :
    (initState 0).txRetryCount = 0 ∧ (2 : Nat) ≤ 24 ∧
    (sentOf (run (initState 0) (List.replicate 2 (Event.radio false))).2 =
        List.replicate 2 (initState 0).cmdData ∧
      (run (initState 0)
          (List.replicate 2 (Event.radio false))).1.txRetryCount = 2 ∧
      sentOf (run (initState 0) (List.replicate 25 (Event.radio false))).2 =
        List.replicate 24 (initState 0).cmdData ∧
      (run (initState 0)
          (List.replicate 25 (Event.radio false))).1.txRetryCount = 0) :=
  ⟨rfl, by decide, retry_bounded_resend (initState 0) 2 rfl (by decide)⟩

/-- C10: a delivery-success callback leaves the dispatcher state — in
particular the retry counter — unchanged; consequently, from a residual
counter k the next payload is resent only 24 − k times, and on the
following failure it is dropped with the counter reset to 0. -/
theorem success_keeps_retry_counter (s : DeviceState) (k : Nat)
    (hk : s.txRetryCount = k) (h24 : k ≤ 24) :
    OnDataSent true s = (s, []) ∧
    sentOf (run s (List.replicate (24 - k) (Event.radio false))).2 =
      List.replicate (24 - k) s.cmdData ∧
    sentOf (run s (List.replicate (25 - k) (Event.radio false))).2 =
      List.replicate (24 - k) s.cmdData ∧
    (run s (List.replicate (25 - k) (Event.radio false))).1.txRetryCount = 0 := by
  have hM : MAX_TX_RETRY = 24 := rfl
  have h2 : s.txRetryCount + (24 - k) ≤ MAX_TX_RETRY := by omega
  have e25 := run_25_failures s k hk h24
  refine ⟨rfl, ?_, ?_, ?_⟩
  · rw [run_failures _ s h2, sentOf_replicate]
  · rw [e25, sentOf_replicate]
  · rw [e25]

/-- Witness for `success_keeps_retry_counter` at k = 3. -/
theorem success_keeps_retry_counter_witness :
    ({ initState 0 with txRetryCount := 3 } : DeviceState).txRetryCount = 3 ∧
    (3 : Nat) ≤ 24 ∧
    (OnDataSent true { initState 0 with txRetryCount := 3 } =
        ({ initState 0 with txRetryCount := 3 }, []) ∧
      sentOf (run { initState 0 with txRetryCount := 3 }
          (List.replicate (24 - 3) (Event.radio false))).2 =
        List.replicate (24 - 3)
          ({ initState 0 with txRetryCount := 3 } : DeviceState).cmdData ∧
      sentOf (run { initState 0 with txRetryCount := 3 }
          (List.replicate (25 - 3) (Event.radio false))).2 =
        List.replicate (24 - 3)
          ({ initState 0 with txRetryCount := 3 } : DeviceState).cmdData ∧
      (run { initState 0 with txRetryCount := 3 }
          (List.replicate (25 - 3) (Event.radio false))).1.txRetryCount = 0) :=
  ⟨rfl, by decide,
    success_keeps_retry_counter { initState 0 with txRetryCount := 3 } 3
      rfl (by decide)⟩

/-- C4 counterexample: the pending command for key 1 is transmitted,
then a key-down for key 2 mutates the global pending command; the retry
issued by the failure callback transmits key 2's payload, not the
payload of the last send attempt (key 1). -/
theorem retry_payload_counterexample :
    sentOf (run (initState 0)
        [Event.down 1 0, Event.up 1, Event.down 2 5, Event.radio false]).2 =
      [{ key := 1, cmd := .send_ir }, { key := 2, cmd := .send_ir }] ∧
    ({ key := 2, cmd := .send_ir } : CmdData) ≠
      { key := 1, cmd := .send_ir } := by
  decide

/-- C4 (amended): when a delivery-failure callback arrives and the retry
counter is below the bound, the dispatcher resends the *current* pending
Command (the global `cmdData`) — last writer wins — so a retry after a
mutating key event carries the mutated payload. -/
theorem retry_resends_pending (s : DeviceState)
    (h : s.txRetryCount < 24) :
    OnDataSent false s =
      ({ s with txRetryCount := s.txRetryCount + 1 },
       [Effect.sent s.cmdData]) :=
  onDataSent_fail_lt s h

/-- Witness for `retry_resends_pending` at the boot state. -/
theorem retry_resends_pending_witness :
    (initState 0).txRetryCount < 24 ∧
    OnDataSent false (initState 0) =
      ({ initState 0 with txRetryCount := (initState 0).txRetryCount + 1 },
       [Effect.sent (initState 0).cmdData]) :=
  ⟨by decide, retry_resends_pending (initState 0) (by decide)⟩

/-- C1: for every starting state, holding FN, pressing and releasing a
key K ≠ FN, then releasing FN dispatches exactly one command — a
LearnSignal for key K — and performs no brightness step anywhere in the
sequence. -/
theorem fn_hold_learn_dispatch (s : DeviceState) (K t1 t2 : Nat)
    (hK : K ≠ 20) :
    sentOf (run s [Event.down 20 t1, Event.down K t2,
        Event.up K, Event.up 20]).2 = [{ key := K, cmd := .learn_ir }] ∧
    brightnessSteps (run s [Event.down 20 t1, Event.down K t2,
        Event.up K, Event.up 20]).2 = 0 := by
  by_cases hB : s.backlightBrightness = BACKLIGHT_MAX_VAL <;>
  by_cases hK5 : K = 5 <;>
    simp [run, step, keyDown, keyUp, hapticVibrate, stepBacklightBrightness,
      backlightLearnModeSent, backlightSetPattern, sendCmd, sentOf,
      brightnessSteps, FN_KEY, PWR_KEY, hK, hK5, hB]

/-- Witness for `fn_hold_learn_dispatch` with K = 3 from the boot state. -/
theorem fn_hold_learn_dispatch_witness :
    (3 : Nat) ≠ 20 ∧
    (sentOf (run (initState 0) [Event.down 20 0, Event.down 3 1,
        Event.up 3, Event.up 20]).2 = [{ key := 3, cmd := .learn_ir }] ∧
      brightnessSteps (run (initState 0) [Event.down 20 0, Event.down 3 1,
        Event.up 3, Event.up 20]).2 = 0) :=
  ⟨by decide, fn_hold_learn_dispatch (initState 0) 3 0 1 (by decide)⟩

/-- C2: for every starting state, pressing FN and releasing it with no
other key in between performs exactly one brightness step and transmits
no command. -/
theorem fn_tap_brightness_step (s : DeviceState) (t1 : Nat) :
    brightnessSteps (run s [Event.down 20 t1, Event.up 20]).2 = 1 ∧
    sentOf (run s [Event.down 20 t1, Event.up 20]).2 = [] := by
  by_cases hB : s.backlightBrightness = BACKLIGHT_MAX_VAL <;>
  by_cases hLB : s.lowBattery = true <;>
    simp [run, step, keyDown, keyUp, hapticVibrate, stepBacklightBrightness,
      backlightLowBattery, backlightSetPattern, sendCmd, sentOf,
      brightnessSteps, FN_KEY, PWR_KEY, hB, hLB]

-- Long-press (factory reset) analysis

/-- Event lists containing no PWR-key transitions and no radio
callbacks: arbitrary other-key activity and watchdog polls. -/
def keyOnlyNoPwr (es : List Event) : Bool :=
  es.all fun e =>
    match e with
    | .down k _ => k != PWR_KEY
    | .up k => k != PWR_KEY
    | .poll _ => true
    | .radio _ => false

/-- Some poll in the list is late enough (relative to press time `t0`)
to satisfy the firmware's long-press condition. -/
def hasFiringPoll (t0 : Nat) (es : List Event) : Bool :=
  es.any fun e =>
    match e with
    | .poll t => decide (FACTORY_RESET_HOLD_MS < u32sub t t0)
    | _ => false

lemma keyDown_fResetSends (k t : Nat) (s : DeviceState) :
    fResetSends (keyDown k t s).2 = 0 := by
  by_cases hB : s.backlightBrightness = BACKLIGHT_MAX_VAL <;>
    simp [keyDown, hapticVibrate, fResetSends, sentOf, hB]

lemma keyDown_pwr_preserved (k t : Nat) (s : DeviceState) (hk : k ≠ PWR_KEY) :
    (keyDown k t s).1.pwr_key_is_down = s.pwr_key_is_down ∧
    (keyDown k t s).1.lastPwrKeyDown = s.lastPwrKeyDown := by
  have hFP : (FN_KEY : Nat) ≠ PWR_KEY := by decide
  by_cases hB : s.backlightBrightness = BACKLIGHT_MAX_VAL <;>
  by_cases h20 : k = FN_KEY <;>
    simp [keyDown, hapticVibrate, hB, h20, hk, hFP]

lemma keyDown_pwr_set (t : Nat) (s : DeviceState) :
    (keyDown PWR_KEY t s).1.pwr_key_is_down = true ∧
    (keyDown PWR_KEY t s).1.lastPwrKeyDown = t := by
  by_cases hB : s.backlightBrightness = BACKLIGHT_MAX_VAL <;>
    simp [keyDown, hapticVibrate, hB, PWR_KEY, FN_KEY]

lemma keyUp_fResetSends (k : Nat) (s : DeviceState) :
    fResetSends (keyUp k s).2 = 0 := by
  cases hcmd : s.cmdData.cmd <;>
  by_cases hA : k = FN_KEY <;>
  by_cases h2 : s.cmdData.key = FN_KEY <;>
  by_cases h4 : s.lowBattery = true <;>
    simp [keyUp, stepBacklightBrightness, backlightLowBattery,
      backlightLearnModeSent, backlightSetPattern, sendCmd,
      fResetSends, sentOf, hcmd, hA, h2, h4]

lemma keyUp_pwr_preserved (k : Nat) (s : DeviceState) (hk : k ≠ PWR_KEY) :
    (keyUp k s).1.pwr_key_is_down = s.pwr_key_is_down ∧
    (keyUp k s).1.lastPwrKeyDown = s.lastPwrKeyDown := by
  have hFP : (FN_KEY : Nat) ≠ PWR_KEY := by decide
  cases hcmd : s.cmdData.cmd <;>
  by_cases hA : k = FN_KEY <;>
  by_cases h2 : s.cmdData.key = FN_KEY <;>
  by_cases h4 : s.lowBattery = true <;>
    simp [keyUp, stepBacklightBrightness, backlightLowBattery,
      backlightLearnModeSent, backlightSetPattern, sendCmd,
      hcmd, hA, h2, h4, hk, hFP]

lemma checkLong_noFire (t : Nat) (s : DeviceState)
    (h : ¬(s.pwr_key_is_down = true ∧
        FACTORY_RESET_HOLD_MS < u32sub t s.lastPwrKeyDown)) :
    checkLongKeyPress t s = (s, []) := by
  simp [checkLongKeyPress, h]

lemma checkLong_fire (t : Nat) (s : DeviceState)
    (h : s.pwr_key_is_down = true ∧
        FACTORY_RESET_HOLD_MS < u32sub t s.lastPwrKeyDown) :
    fResetSends (checkLongKeyPress t s).2 = 1 ∧
    (checkLongKeyPress t s).1.pwr_key_is_down = false ∧
    (100, 11) ∈ patternsOf (checkLongKeyPress t s).2 := by
  simp [checkLongKeyPress, h, backlightDataSaved, backlightSetPattern,
    sendCmd, fResetSends, sentOf, patternsOf]

/-- After the long press has fired (held flag cleared), a PWR-free event
suffix dispatches no further FactoryReset and leaves the flag cleared. -/
lemma run_noPwr_postFire (es : List Event) :
    ∀ s : DeviceState, keyOnlyNoPwr es = true →
      s.pwr_key_is_down = false →
      fResetSends (run s es).2 = 0 ∧
      (run s es).1.pwr_key_is_down = false := by
  induction es with
  | nil => intro s _ hp; exact ⟨by simp [run, fResetSends, sentOf], by simp [run, hp]⟩
  | cons e es ih =>
    intro s hall hp
    simp only [keyOnlyNoPwr, List.all_cons, Bool.and_eq_true] at hall
    obtain ⟨he, hes⟩ := hall
    have hes' : keyOnlyNoPwr es = true := hes
    rw [run_cons]
    cases e with
    | down k t =>
      have hk : k ≠ PWR_KEY := by simpa using he
      have hpp := keyDown_pwr_preserved k t s hk
      have ihh := ih (keyDown k t s).1 hes' (hpp.1.trans hp)
      exact ⟨by simp only [step, fResetSends_append, keyDown_fResetSends,
        ihh.1], ihh.2⟩
    | up k =>
      have hk : k ≠ PWR_KEY := by simpa using he
      have hpp := keyUp_pwr_preserved k s hk
      have ihh := ih (keyUp k s).1 hes' (hpp.1.trans hp)
      exact ⟨by simp only [step, fResetSends_append, keyUp_fResetSends,
        ihh.1], ihh.2⟩
    | poll t =>
      have hnf : ¬(s.pwr_key_is_down = true ∧
          FACTORY_RESET_HOLD_MS < u32sub t s.lastPwrKeyDown) := by
        rw [hp]; simp
      have ihh := ih s hes' hp
      rw [show step s (Event.poll t) = checkLongKeyPress t s from rfl,
        checkLong_noFire t s hnf]
      exact ⟨by simp only [fResetSends_append, ihh.1]
                simp [fResetSends, sentOf], ihh.2⟩
    | radio ok => exact absurd he (by simp)

/-- While PWR is held (press recorded at `t0`), a PWR-free event suffix
containing a firing poll dispatches exactly one FactoryReset, clears the
held flag, and plays the data-saved pattern. -/
lemma run_noPwr_preFire (es : List Event) :
    ∀ (s : DeviceState) (t0 : Nat), keyOnlyNoPwr es = true →
      s.pwr_key_is_down = true → s.lastPwrKeyDown = t0 →
      hasFiringPoll t0 es = true →
      fResetSends (run s es).2 = 1 ∧
      (run s es).1.pwr_key_is_down = false ∧
      (100, 11) ∈ patternsOf (run s es).2 := by
  induction es with
  | nil => intro s t0 _ _ _ hfp; simp [hasFiringPoll] at hfp
  | cons e es ih =>
    intro s t0 hall hpw hlast hfp
    simp only [keyOnlyNoPwr, List.all_cons, Bool.and_eq_true] at hall
    obtain ⟨he, hes⟩ := hall
    have hes' : keyOnlyNoPwr es = true := hes
    rw [run_cons]
    cases e with
    | down k t =>
      have hk : k ≠ PWR_KEY := by simpa using he
      have hpp := keyDown_pwr_preserved k t s hk
      have hfp' : hasFiringPoll t0 es = true := by
        simpa [hasFiringPoll] using hfp
      have ihh := ih (keyDown k t s).1 t0 hes' (hpp.1.trans hpw)
        (hpp.2.trans hlast) hfp'
      refine ⟨?_, ihh.2.1, ?_⟩
      · simp only [step, fResetSends_append, keyDown_fResetSends, ihh.1]
      · simp only [step, patternsOf_append]
        exact List.mem_append_right _ ihh.2.2
    | up k =>
      have hk : k ≠ PWR_KEY := by simpa using he
      have hpp := keyUp_pwr_preserved k s hk
      have hfp' : hasFiringPoll t0 es = true := by
        simpa [hasFiringPoll] using hfp
      have ihh := ih (keyUp k s).1 t0 hes' (hpp.1.trans hpw)
        (hpp.2.trans hlast) hfp'
      refine ⟨?_, ihh.2.1, ?_⟩
      · simp only [step, fResetSends_append, keyUp_fResetSends, ihh.1]
      · simp only [step, patternsOf_append]
        exact List.mem_append_right _ ihh.2.2
    | poll t =>
      by_cases hcond : FACTORY_RESET_HOLD_MS < u32sub t t0
      · have hc : s.pwr_key_is_down = true ∧
            FACTORY_RESET_HOLD_MS < u32sub t s.lastPwrKeyDown :=
          ⟨hpw, by rw [hlast]; exact hcond⟩
        have hf := checkLong_fire t s hc
        have hpost := run_noPwr_postFire es (checkLongKeyPress t s).1
          hes' hf.2.1
        refine ⟨?_, hpost.2, ?_⟩
        · simp only [step, fResetSends_append, hf.1, hpost.1]
        · simp only [step, patternsOf_append]
          exact List.mem_append_left _ hf.2.2
      · have hnf : ¬(s.pwr_key_is_down = true ∧
            FACTORY_RESET_HOLD_MS < u32sub t s.lastPwrKeyDown) := by
          rw [hlast]; tauto
        have hfp' : hasFiringPoll t0 es = true := by
          simp only [hasFiringPoll, List.any_cons, Bool.or_eq_true] at hfp
          rcases hfp with h | h
          · exact absurd (of_decide_eq_true h) hcond
          · exact h
        have ihh := ih s t0 hes' hpw hlast hfp'
        rw [show step s (Event.poll t) = checkLongKeyPress t s from rfl,
          checkLong_noFire t s hnf]
        refine ⟨?_, ihh.2.1, ?_⟩
        · simp only [fResetSends_append, ihh.1]
          simp [fResetSends, sentOf]
        · simp only [patternsOf_append]
          exact List.mem_append_right _ ihh.2.2
    | radio ok => exact absurd he (by simp)

/-- C5 counterexample: PWR is held continuously for exactly 8000 ms
(press at t = 0, release at t = 8000) with the long-press watchdog
polled every 1000 ms cycle; the firmware condition is strict
(`elapsed > 8000`), so no FactoryReset command is dispatched at all. -/
theorem long_press_8000ms_counterexample :
    fResetSends (run (initState 0)
      [Event.down 5 0, Event.poll 1000, Event.poll 2000, Event.poll 3000,
       Event.poll 4000, Event.poll 5000, Event.poll 6000, Event.poll 7000,
       Event.poll 8000, Event.up 5]).2 = 0 := by
  decide

/-- C5 (amended): if PWR is pressed at `t0` and, before its release,
some watchdog poll happens at a time strictly more than 8000 ms after
the press (while PWR is still held), then — regardless of interleaved
non-PWR key events and further polls — exactly one FactoryReset command
is dispatched for that hold, and the data-saved feedback pattern plays;
the held flag is cleared by the dispatch so no second one occurs. -/
theorem long_press_factory_reset (s : DeviceState) (t0 : Nat)
    (mid : List Event)
    (hkeys : keyOnlyNoPwr mid = true)
    (hfire : hasFiringPoll t0 mid = true) :
    fResetSends (run s
      (Event.down PWR_KEY t0 :: (mid ++ [Event.up PWR_KEY]))).2 = 1 ∧
    (100, 11) ∈ patternsOf (run s
      (Event.down PWR_KEY t0 :: (mid ++ [Event.up PWR_KEY]))).2 := by
  have hrs : ∀ (s' : DeviceState) (e : Event),
      run s' [e] = ((step s' e).1, (step s' e).2 ++ []) := by
    intro s' e; rfl
  rw [run_cons, run_append, hrs]
  simp only [step]
  have hset := keyDown_pwr_set t0 s
  have hA := run_noPwr_preFire mid (keyDown PWR_KEY t0 s).1 t0 hkeys
    hset.1 hset.2 hfire
  constructor
  · rw [fResetSends_append, fResetSends_append, fResetSends_append,
      keyDown_fResetSends, hA.1, keyUp_fResetSends]
    rfl
  · rw [patternsOf_append, patternsOf_append]
    exact List.mem_append_right _ (List.mem_append_left _ hA.2.2)

/-- Witness for `long_press_factory_reset`: a single poll 8001 ms after
the press. -/
theorem long_press_factory_reset_witness :
    keyOnlyNoPwr [Event.poll 8001] = true ∧
    hasFiringPoll 0 [Event.poll 8001] = true ∧
    (fResetSends (run (initState 0)
        (Event.down PWR_KEY 0 :: ([Event.poll 8001] ++ [Event.up PWR_KEY]))).2
          = 1 ∧
      (100, 11) ∈ patternsOf (run (initState 0)
        (Event.down PWR_KEY 0 ::
          ([Event.poll 8001] ++ [Event.up PWR_KEY]))).2) :=
  ⟨by decide, by decide,
    long_press_factory_reset (initState 0) 0 [Event.poll 8001]
      (by decide) (by decide)⟩

-- Battery monitor lemmas

lemma classifiedOf_checkInternalButton (now : Nat) (pinLow : Bool)
    (cal : List Nat) (s : DeviceState) :
    classifiedOf (checkInternalButton now pinLow cal s).2 = [] := by
  simp only [checkInternalButton, calcSaveAnalogOffset, backlightDataSaved,
    backlightSetPattern]
  split_ifs <;> simp [classifiedOf]

lemma classifiedOf_nil : classifiedOf [] = [] := rfl

lemma classifiedOf_cons_classified (b : BatteryState) (l : List Effect) :
    classifiedOf (Effect.batteryClassified b :: l) = b :: classifiedOf l := by
  simp [classifiedOf]

lemma classifiedOf_cons_pattern (d t : Nat) (l : List Effect) :
    classifiedOf (Effect.pattern d t :: l) = classifiedOf l := by
  simp [classifiedOf]

lemma classifiedOf_cons_deep (l : List Effect) :
    classifiedOf (Effect.enterDeepSleep :: l) = classifiedOf l := by
  simp [classifiedOf]

lemma classifiedOf_checkBattery (samples : List Nat) (now : Nat)
    (pinLow : Bool) (cal : List Nat) (s : DeviceState) :
    classifiedOf (checkBattery samples now pinLow cal s).2 =
      [specClassify (filteredReading samples s.analogOffset)] := by
  by_cases h1 : filteredReading samples s.analogOffset < 3630
  · by_cases h2 :
        (checkInternalButton now pinLow cal s).1.int_btn_is_down = true <;>
      simp [checkBattery, specClassify, VBAT_CRITICAL, VBAT_LOW, h1, h2,
        backlightLearnModeSent, backlightSetPattern, classifiedOf_append,
        classifiedOf_checkInternalButton, classifiedOf_cons_classified,
        classifiedOf_cons_pattern, classifiedOf_cons_deep, classifiedOf_nil]
  · by_cases h3 : filteredReading samples s.analogOffset < 3680 <;>
    by_cases h4 : s.lowBattery = false <;>
      simp [checkBattery, specClassify, VBAT_CRITICAL, VBAT_LOW, h1, h3, h4,
        backlightLowBattery, backlightSetPattern,
        classifiedOf_cons_classified, classifiedOf_cons_pattern,
        classifiedOf_nil]

/-- C9: for every representable filtered reading (30-sample average plus
stored calibration offset, 16-bit), `checkBattery` classifies exactly by
the thresholds: below 3630 Critical, in [3630, 3680) Low, at or above
3680 Normal. -/
theorem battery_classification_thresholds (samples cal : List Nat)
    (now : Nat) (pinLow : Bool) (s : DeviceState) :
    classifiedOf (checkBattery samples now pinLow cal s).2 =
      [specClassify (filteredReading samples s.analogOffset)] ∧
    filteredReading samples s.analogOffset < 65536 := by
  refine ⟨classifiedOf_checkBattery samples now pinLow cal s, ?_⟩
  simp only [filteredReading]
  omega

lemma checkBattery_low_fresh (samples cal : List Nat) (now : Nat)
    (pin : Bool) (s : DeviceState)
    (hge : ¬ filteredReading samples s.analogOffset < VBAT_CRITICAL)
    (hlt : filteredReading samples s.analogOffset < VBAT_LOW)
    (hlb : s.lowBattery = false) :
    checkBattery samples now pin cal s =
      ({ s with lowBattery := true, backlightPatCnt := 0,
                backlightMilOld := 0, backlightPatDurMs := 100,
                backlightPatTimes := 7 },
       [Effect.batteryClassified .Low, Effect.pattern 100 7]) := by
  simp [checkBattery, hge, hlt, hlb, backlightLowBattery,
    backlightSetPattern]

lemma checkBattery_low_stale (samples cal : List Nat) (now : Nat)
    (pin : Bool) (s : DeviceState)
    (hge : ¬ filteredReading samples s.analogOffset < VBAT_CRITICAL)
    (hlt : filteredReading samples s.analogOffset < VBAT_LOW)
    (hlb : s.lowBattery = true) :
    checkBattery samples now pin cal s =
      (s, [Effect.batteryClassified .Low]) := by
  simp [checkBattery, hge, hlt, hlb]

lemma checkBattery_normal (samples cal : List Nat) (now : Nat)
    (pin : Bool) (s : DeviceState)
    (hge : ¬ filteredReading samples s.analogOffset < VBAT_LOW) :
    checkBattery samples now pin cal s =
      ({ s with lowBattery := false }, [Effect.batteryClassified .Normal]) := by
  have hge' : ¬ filteredReading samples s.analogOffset < VBAT_CRITICAL := by
    have h1 : (VBAT_CRITICAL : Nat) = 3630 := rfl
    have h2 : (VBAT_LOW : Nat) = 3680 := rfl
    omega
  simp [checkBattery, hge, hge']

lemma checkBattery_critical_noBtn (samples cal : List Nat) (now : Nat)
    (s : DeviceState)
    (hv : filteredReading samples s.analogOffset < VBAT_CRITICAL)
    (hbtn : s.int_btn_is_down = false) :
    checkBattery samples now false cal s =
      (s, [Effect.batteryClassified .Critical, Effect.enterDeepSleep]) := by
  have hbt : checkInternalButton now false cal s = (s, []) := by
    simp [checkInternalButton, hbtn]
  simp [checkBattery, hv, hbt, hbtn]

/-- C8 counterexample: a transition into Critical (battery reading below
3630, calibration button not held, previous classification Normal)
triggers no feedback pattern at all — the device heads straight to deep
sleep — contradicting "a transition into Low or into Critical triggers a
feedback pattern exactly once". -/
theorem critical_transition_no_pattern :
    patternsOf (checkBattery (List.replicate 30 3000) 0 false []
      (initState 0)).2 = [] ∧
    classifiedOf (checkBattery (List.replicate 30 3000) 0 false []
      (initState 0)).2 = [BatteryState.Critical] := by
  decide

/-- C8 (amended): the transition into Low is edge-triggered: a check
that moves the classification from not-low to Low plays the low-battery
pattern exactly once, and a consecutive check that stays Low plays no
pattern; a transition into Critical with the calibration button not
held plays no feedback pattern at all — the device enters deep sleep
immediately. -/
theorem low_battery_edge_triggered (samples1 samples2 samples3 : List Nat)
    (cal1 cal2 cal3 : List Nat) (n1 n2 n3 : Nat) (p1 p2 : Bool)
    (s : DeviceState)
    (hlb : s.lowBattery = false)
    (h1 : 3630 ≤ filteredReading samples1 s.analogOffset)
    (h2 : filteredReading samples1 s.analogOffset < 3680)
    (h3 : 3630 ≤ filteredReading samples2 s.analogOffset)
    (h4 : filteredReading samples2 s.analogOffset < 3680)
    (h5 : filteredReading samples3 s.analogOffset < 3630)
    (h6 : s.int_btn_is_down = false) :
    patternsOf (checkBattery samples1 n1 p1 cal1 s).2 = [(100, 7)] ∧
    patternsOf (checkBattery samples2 n2 p2 cal2
      (checkBattery samples1 n1 p1 cal1 s).1).2 = [] ∧
    patternsOf (checkBattery samples3 n3 false cal3 s).2 = [] ∧
    Effect.enterDeepSleep ∈ (checkBattery samples3 n3 false cal3 s).2 := by
  have hC : (VBAT_CRITICAL : Nat) = 3630 := rfl
  have hL : (VBAT_LOW : Nat) = 3680 := rfl
  have e1 := checkBattery_low_fresh samples1 cal1 n1 p1 s
    (by omega) (by omega) hlb
  have e3 := checkBattery_critical_noBtn samples3 cal3 n3 s (by omega) h6
  refine ⟨by rw [e1]; rfl, ?_, by rw [e3]; rfl, by rw [e3]; simp⟩
  rw [e1]
  have e2 := checkBattery_low_stale samples2 cal2 n2 p2
    ({ s with lowBattery := true, backlightPatCnt := 0,
              backlightMilOld := 0, backlightPatDurMs := 100,
              backlightPatTimes := 7 })
    (by show ¬ filteredReading samples2 s.analogOffset < VBAT_CRITICAL
        omega)
    (by show filteredReading samples2 s.analogOffset < VBAT_LOW
        omega)
    rfl
  rw [e2]
  rfl

/-- Witness for `low_battery_edge_triggered`: readings 3650 (twice) and
3000 from the boot state with zero offset. -/
theorem low_battery_edge_triggered_witness :
    (initState 0).lowBattery = false ∧
    3630 ≤ filteredReading (List.replicate 30 3650) (initState 0).analogOffset ∧
    filteredReading (List.replicate 30 3650) (initState 0).analogOffset < 3680 ∧
    filteredReading (List.replicate 30 3000) (initState 0).analogOffset < 3630 ∧
    (initState 0).int_btn_is_down = false ∧
    (patternsOf (checkBattery (List.replicate 30 3650) 1 true []
        (initState 0)).2 = [(100, 7)] ∧
      patternsOf (checkBattery (List.replicate 30 3650) 2 false []
        (checkBattery (List.replicate 30 3650) 1 true [] (initState 0)).1).2
          = [] ∧
      patternsOf (checkBattery (List.replicate 30 3000) 3 false []
        (initState 0)).2 = [] ∧
      Effect.enterDeepSleep ∈ (checkBattery (List.replicate 30 3000) 3 false
        [] (initState 0)).2) :=
  ⟨rfl, by decide, by decide, by decide, rfl,
    low_battery_edge_triggered (List.replicate 30 3650)
      (List.replicate 30 3650) (List.replicate 30 3000) [] [] [] 1 2 3
      true false (initState 0) rfl (by decide) (by decide) (by decide)
      (by decide) (by decide) rfl⟩

-- Loop/battery interaction (battery is only polled in setup)

lemma step_no_classify (s : DeviceState) (e : Event) :
    classifiedOf (step s e).2 = [] ∧
    (step s e).1.lowBattery = s.lowBattery := by
  have hFP : (FN_KEY : Nat) ≠ PWR_KEY := by decide
  have hPF : (PWR_KEY : Nat) ≠ FN_KEY := by decide
  cases e with
  | down k t =>
    by_cases hB : s.backlightBrightness = BACKLIGHT_MAX_VAL <;>
    by_cases h20 : k = FN_KEY <;>
    by_cases h5 : k = PWR_KEY <;>
      simp [step, keyDown, hapticVibrate, classifiedOf, hB, h20, h5, hFP, hPF]
  | up k =>
    cases hcmd : s.cmdData.cmd <;>
    by_cases hA : k = FN_KEY <;>
    by_cases h2 : s.cmdData.key = FN_KEY <;>
    by_cases h4 : s.lowBattery = true <;>
    by_cases h5 : k = PWR_KEY <;>
      simp [step, keyUp, stepBacklightBrightness, backlightLowBattery,
        backlightLearnModeSent, backlightSetPattern, sendCmd, classifiedOf,
        hcmd, hA, h2, h4, h5, hFP, hPF]
  | poll t =>
    by_cases hc : s.pwr_key_is_down = true ∧
        FACTORY_RESET_HOLD_MS < u32sub t s.lastPwrKeyDown <;>
      simp [step, checkLongKeyPress, backlightDataSaved,
        backlightSetPattern, sendCmd, classifiedOf, hc]
  | radio ok =>
    by_cases hok : ok = true <;>
    by_cases hr : s.txRetryCount < MAX_TX_RETRY <;>
      simp [step, OnDataSent, sendCmd, classifiedOf, hok, hr]

lemma run_no_classify (es : List Event) :
    ∀ s : DeviceState, classifiedOf (run s es).2 = [] ∧
      (run s es).1.lowBattery = s.lowBattery := by
  induction es with
  | nil => intro s; exact ⟨rfl, rfl⟩
  | cons e es ih =>
    intro s
    rw [run_cons]
    have h1 := step_no_classify s e
    have h2 := ih (step s e).1
    exact ⟨by simp only [classifiedOf_append, h1.1, h2.1, List.nil_append],
      h2.2.trans h1.2⟩

lemma checkLong_no_classify (now : Nat) (s : DeviceState) :
    classifiedOf (checkLongKeyPress now s).2 = [] ∧
    (checkLongKeyPress now s).1.lowBattery = s.lowBattery :=
  step_no_classify s (Event.poll now)

lemma updateBacklight_no_classify (now : Nat) (s : DeviceState) :
    classifiedOf (updateBacklight now s).2 = [] ∧
    (updateBacklight now s).1.lowBattery = s.lowBattery := by
  simp only [updateBacklight]
  split_ifs <;> simp [classifiedOf]

lemma checkInternalButton_no_classify (now : Nat) (pinLow : Bool)
    (cal : List Nat) (s : DeviceState) :
    classifiedOf (checkInternalButton now pinLow cal s).2 = [] ∧
    (checkInternalButton now pinLow cal s).1.lowBattery = s.lowBattery := by
  simp only [checkInternalButton, calcSaveAnalogOffset, backlightDataSaved,
    backlightSetPattern]
  split_ifs <;> simp [classifiedOf]

/-- C7 counterexample: one full iteration of `loop()` (here with no key
events pending) performs no battery classification at all — no
`batteryClassified` effect is emitted — contradicting "the battery is
re-sampled and re-classified every cycle". -/
theorem loop_no_battery_poll_counterexample :
    classifiedOf (loopCycle [] 1000 false [] (initState 0)).2 = [] ∧
    (loopCycle [] 1000 false [] (initState 0)).1.lowBattery = false := by
  decide

/-- C7 (amended): the battery is sampled and classified only by
`checkBattery`, which `setup()` runs once per boot (a call that always
emits exactly one classification); no iteration of `loop()` — whatever
key events, polls or radio callbacks it processes — classifies the
battery or changes the stored classification flag. -/
theorem battery_sampled_only_in_setup (evs : List Event) (now : Nat)
    (pinLow : Bool) (cal : List Nat) (s : DeviceState) :
    classifiedOf (loopCycle evs now pinLow cal s).2 = [] ∧
    (loopCycle evs now pinLow cal s).1.lowBattery = s.lowBattery ∧
    ∀ (samples cal2 : List Nat) (n2 : Nat) (p2 : Bool) (s2 : DeviceState),
      classifiedOf (checkBattery samples n2 p2 cal2 s2).2 =
        [specClassify (filteredReading samples s2.analogOffset)] := by
  have h1 := run_no_classify evs s
  have h2 := checkLong_no_classify now (run s evs).1
  have h3 := updateBacklight_no_classify now (checkLongKeyPress now (run s evs).1).1
  have h5 := checkInternalButton_no_classify now pinLow cal
    (updateBacklight now (checkLongKeyPress now (run s evs).1).1).1
  refine ⟨?_, ?_, fun samples cal2 n2 p2 s2 =>
    classifiedOf_checkBattery samples n2 p2 cal2 s2⟩
  · simp only [loopCycle, updateHaptic, classifiedOf_append,
      h1.1, h2.1, h3.1, h5.1, List.append_nil, List.nil_append]
  · simp only [loopCycle, updateHaptic]
    exact (h5.2.trans (h3.2.trans h2.2)).trans h1.2

-- Power manager: inactivity timeout selection

lemma deep_not_in_checkInternalButton (now : Nat) (pin : Bool)
    (cal : List Nat) (s : DeviceState) :
    Effect.enterDeepSleep ∉ (checkInternalButton now pin cal s).2 := by
  simp only [checkInternalButton, calcSaveAnalogOffset, backlightDataSaved,
    backlightSetPattern]
  split_ifs <;> simp

lemma checkBattery_critical_btn (samples cal : List Nat) (now : Nat)
    (pin : Bool) (s : DeviceState)
    (hv : filteredReading samples s.analogOffset < VBAT_CRITICAL)
    (hbtn : (checkInternalButton now pin cal s).1.int_btn_is_down = true) :
    (checkBattery samples now pin cal s).1.lowBattery = true ∧
    Effect.enterDeepSleep ∉ (checkBattery samples now pin cal s).2 := by
  have hd := deep_not_in_checkInternalButton now pin cal s
  simp [checkBattery, hv, hbtn, backlightLearnModeSent,
    backlightSetPattern, hd]

lemma checkBattery_critical_deep (samples cal : List Nat) (now : Nat)
    (pin : Bool) (s : DeviceState)
    (hv : filteredReading samples s.analogOffset < VBAT_CRITICAL)
    (hbtn : ¬ (checkInternalButton now pin cal s).1.int_btn_is_down = true) :
    Effect.enterDeepSleep ∈ (checkBattery samples now pin cal s).2 := by
  simp [checkBattery, hv, hbtn]

/-- C6: whenever boot reaches `startSleepTimer` (the battery check did
not deep-sleep), the armed inactivity span is 60 s exactly when the
filtered reading classified Normal (≥ 3680) and 10 s otherwise
(Low, or Critical surviving via the calibration override); a key press
resets the timer count to zero (deadline := now + span) and never
changes the armed span. -/
theorem sleep_timeout_selection (samples cal : List Nat) (now : Nat)
    (pinLow : Bool) (s s' : DeviceState) (tm : SleepTimer)
    (h : setupPower samples now pinLow cal s = some (s', tm)) :
    tm = { count := 0,
           alarmUs := (if 3680 ≤ filteredReading samples s.analogOffset
                       then DEFAULT_SLEEP_TIMEOUT_S
                       else LOWBAT_SLEEP_TIMEOUT_S) * 1000000 } ∧
    (∀ tm2 : SleepTimer, timerKeyReset tm2 =
      { count := 0, alarmUs := tm2.alarmUs }) ∧
    ∀ (k t : Nat) (s2 : DeviceState),
      Effect.sleepTimerReset ∈ (keyDown k t s2).2 := by
  have hC : (VBAT_CRITICAL : Nat) = 3630 := rfl
  have hL : (VBAT_LOW : Nat) = 3680 := rfl
  refine ⟨?_, fun tm2 => rfl, fun k t s2 => by
    by_cases hB : s2.backlightBrightness = BACKLIGHT_MAX_VAL <;>
      simp [keyDown, hapticVibrate, hB]⟩
  simp only [setupPower] at h
  by_cases hv1 : filteredReading samples s.analogOffset < VBAT_CRITICAL
  · by_cases hbtn :
        (checkInternalButton now pinLow cal s).1.int_btn_is_down = true
    · have hcb := checkBattery_critical_btn samples cal now pinLow s hv1 hbtn
      rw [if_neg hcb.2] at h
      simp only [Option.some.injEq, Prod.mk.injEq] at h
      rw [← h.2, startSleepTimerF, hcb.1]
      have hge : ¬ 3680 ≤ filteredReading samples s.analogOffset := by omega
      simp [hge]
    · have hd := checkBattery_critical_deep samples cal now pinLow s hv1 hbtn
      rw [if_pos hd] at h
      exact absurd h (by simp)
  · by_cases hv2 : filteredReading samples s.analogOffset < VBAT_LOW
    · have hge : ¬ 3680 ≤ filteredReading samples s.analogOffset := by omega
      by_cases hlb : s.lowBattery = false
      · rw [checkBattery_low_fresh samples cal now pinLow s hv1 hv2 hlb] at h
        simp at h
        rw [← h.2, startSleepTimerF]
        simp [hge]
      · have hlb' : s.lowBattery = true := by
          revert hlb; cases s.lowBattery <;> simp
        rw [checkBattery_low_stale samples cal now pinLow s hv1 hv2 hlb'] at h
        simp at h
        rw [← h.2, startSleepTimerF, hlb']
        simp [hge]
    · rw [checkBattery_normal samples cal now pinLow s hv2] at h
      simp at h
      rw [← h.2, startSleepTimerF]
      have hge : 3680 ≤ filteredReading samples s.analogOffset := by omega
      simp [hge]

/-- Witness for `sleep_timeout_selection`: a Normal-battery boot
(reading 3700) arms the 60 s timeout. -/
theorem sleep_timeout_selection_witness :
    setupPower (List.replicate 30 3700) 7 false [] (initState 0) =
      some ({ initState 0 with lowBattery := false },
            { count := 0, alarmUs := 60000000 }) ∧
    (({ count := 0, alarmUs := 60000000 } : SleepTimer) =
      { count := 0,
        alarmUs := (if 3680 ≤ filteredReading (List.replicate 30 3700)
                        (initState 0).analogOffset
                    then DEFAULT_SLEEP_TIMEOUT_S
                    else LOWBAT_SLEEP_TIMEOUT_S) * 1000000 } ∧
    (∀ tm2 : SleepTimer, timerKeyReset tm2 =
      { count := 0, alarmUs := tm2.alarmUs }) ∧
    ∀ (k t : Nat) (s2 : DeviceState),
      Effect.sleepTimerReset ∈ (keyDown k t s2).2) :=
  ⟨by decide,
    sleep_timeout_selection (List.replicate 30 3700) [] 7 false
      (initState 0) { initState 0 with lowBattery := false }
      { count := 0, alarmUs := 60000000 } (by decide)⟩
